import Mathlib

/-!
Verification of the advisory-management CLI (`elliott.py`).

The definitions below are a shallow embedding of the logic in
`src/tools/src/elliott.py`: the release-date calculation inside the
`advisory:create` command, and the build resolution / attachment pipeline of
the `advisory:find-builds` command.  Dates are represented as integers
counting days since 1970-01-01 (which was a Thursday), so Python's
`strftime('%w')` (Sunday = 0) becomes `(d + 4) % 7`.
-/

/-- Day of the week of day `d` (counted in days since 1970-01-01), with
Sunday = 0, matching Python's `strftime('%w')`.  1970-01-01 was a Thursday,
hence the offset 4. -/
def dayOfWeekW (d : Int) : Int := (d + 4) % 7

/-- The auto-date path of `advisory:create` (elliott.py lines 381-393):
add 21 days to the prior advisory's release date, then, when the day of the
week is not Tuesday (`2`), subtract `day_of_week - 2` days. -/
def computeNextReleaseDate (r : Int) : Int :=
  let release_date := r + 21
  let day_of_week := dayOfWeekW release_date
  if day_of_week ≠ 2 then release_date - (day_of_week - 2) else release_date

/-- Zero-padding of a natural number to `width` digits, as done by
`strftime` directives such as `%m` and `%d`. -/
def padZero (width : Nat) (n : Nat) : String :=
  let s := toString n
  if s.length < width then String.mk (List.replicate (width - s.length) '0') ++ s else s

/-- `strftime('%Y-%m-%d')` applied to a date given as (year, month, day),
the `YMD` format string of elliott.py line 37. -/
def strftimeYMD (y m d : Nat) : String :=
  padZero 4 y ++ "-" ++ padZero 2 m ++ "-" ++ padZero 2 d

/-- The sentinel `default_release_date = datetime.datetime(1970, 1, 1, 0, 0)`
of elliott.py line 35, as a (year, month, day) triple. -/
def default_release_date : Nat × Nat × Nat := (1970, 1, 1)

/-- The formatted default date used both as the default value of the `--date`
option (line 298) and in the sentinel comparison (line 357). -/
def defaultReleaseDateStr : String :=
  strftimeYMD default_release_date.1 default_release_date.2.1 default_release_date.2.2

/-- Outcome of the release-date branch of `advisory:create`: either the date
is computed automatically from the latest prior advisory, or the user-supplied
string is parsed and used. -/
inductive DateSource
  | auto (computed : Int)
  | userProvided (s : String)
deriving DecidableEq, Repr

/-- The `--date` branch of `advisory:create` (elliott.py lines 357-396):
when the supplied string equals the formatted default sentinel, the release
date is computed from the latest prior advisory's release date `latest`;
otherwise the supplied string itself is parsed and used. -/
def resolveDateSource (date : String) (latest : Int) : DateSource :=
  if date = defaultReleaseDateStr then .auto (computeNextReleaseDate latest)
  else .userProvided date

/-- Enriched build metadata as used by `advisory:find-builds`: the object
returned by `ocp_cd_tools.brew.get_brew_build`, of which the command reads
exactly the `nvr` string and the `attached_to_open_erratum` flag. -/
structure BuildRecord where
  nvr : String
  attached_to_open_erratum : Bool
deriving DecidableEq, Repr, Inhabited

/-- The `--kind` option of `advisory:find-builds` (`rpm` or `image`). -/
inductive Kind
  | rpm
  | image
deriving DecidableEq, Repr

/-- Chunked work distribution of a fixed-size worker pool: the input list is
split into consecutive rounds of `W` items (one item per worker per round).
`fuel` is an upper bound on the number of rounds; with `fuel ≥ xs.length`
the fuel never runs out, and the middle branch is unreachable. -/
def chunkFuel : Nat → Nat → List α → List (List α)
  | _, _, [] => []
  | 0, _, xs => [xs]
  | fuel + 1, W, x :: xs => (x :: xs.take (W - 1)) :: chunkFuel fuel W (xs.drop (W - 1))

/-- Deterministic model of `ThreadPool(W).map(f, xs)` (elliott.py lines
630-641, 657-667 and 682-691): `W` workers each process one item per round
and the per-item results are gathered back in input order, which is the
documented result order of `Pool.map`. -/
def poolMap (W : Nat) (f : α → β) (xs : List α) : List β :=
  ((chunkFuel xs.length W xs).map (List.map f)).flatten

/-- Propagation of the first raised exception out of a mapped computation:
an error in any element makes the whole result that error, as an exception
inside `pool.map` aborts the surrounding call. -/
def sequenceE : List (Except ε α) → Except ε (List α)
  | [] => .ok []
  | x :: rest =>
    match x with
    | .error e => .error e
    | .ok a =>
      match sequenceE rest with
      | .error e => .error e
      | .ok as => .ok (a :: as)

/-- The concurrent enrichment step of the rpm path of `advisory:find-builds`
(elliott.py lines 682-691): fetch Brew build metadata for every candidate in
a `W`-worker pool; any failing fetch aborts the whole step. -/
def enrich (W : Nat) (fetch : String → Except String BuildRecord)
    (candidates : List String) : Except String (List BuildRecord) :=
  sequenceE (poolMap W fetch candidates)

/-- The `unshipped_builds` list computed by `advisory:find-builds`
(elliott.py lines 615-694), on the success path where every remote call
returns.  Manual mode (`--build` supplied, line 615): map
`get_brew_build` over the supplied identifiers.  Automatic image mode
(lines 625-668): pool-map `get_latest_build_info` over the image metas,
drop entries whose name is in the group's `non_release` list, format each
(n, v, r) triple into an nvr string and pool-map `get_brew_build` over
those.  Automatic rpm mode (lines 669-694): pool-map `get_brew_build` over
the unshipped build candidates, then keep only records not attached to an
open erratum. -/
def unshippedBuilds (W : Nat) (kind : Kind) (builds : List String)
    (get_brew_build : String → BuildRecord)
    (image_metas : List String)
    (get_latest_build_info : String → String × String × String)
    (non_release : List String)
    (rpm_candidates : List String) : List BuildRecord :=
  if builds.length > 0 then
    builds.map get_brew_build
  else
    match kind with
    | .image =>
      let potential_builds := poolMap W get_latest_build_info image_metas
      let potential_builds := potential_builds.filter (fun i => !(non_release.contains i.1))
      poolMap W (fun meta => get_brew_build (meta.1 ++ "-" ++ meta.2.1 ++ "-" ++ meta.2.2))
        potential_builds
    | .rpm =>
      let results := poolMap W get_brew_build rpm_candidates
      results.filter (fun b => !b.attached_to_open_erratum)

/-- Ordering of build records by their `nvr` string, compared as character
lists (equivalent to the string order by `String.le_iff_toList_le`).
Modelled from the spec: the comparison used by Python's `sorted` on these
records lives in `ocp_cd_tools` (not under src/); the spec states the order
is lexicographic ascending by `nvr`. -/
def nvrLE (a b : BuildRecord) : Prop := a.nvr.toList ≤ b.nvr.toList

instance : DecidableRel nvrLE :=
  fun a b => (inferInstance : Decidable (a.nvr.toList ≤ b.nvr.toList))

instance : IsTotal BuildRecord nvrLE := ⟨fun a b => le_total a.nvr.toList b.nvr.toList⟩

instance : IsTrans BuildRecord nvrLE := ⟨fun _ _ _ hab hbc => le_trans hab hbc⟩

/-- Sorting of build records by `nvr`, the `sorted(unshipped_builds)` of
elliott.py line 714 under the `nvr` ordering stated by the spec. -/
def sortByNvr (l : List BuildRecord) : List BuildRecord := List.insertionSort nvrLE l

/-- A list of build records is in ascending `nvr` order. -/
def sortedNvr (l : List BuildRecord) : Prop := List.Sorted nvrLE l

instance (l : List BuildRecord) : Decidable (sortedNvr l) :=
  (inferInstance : Decidable (List.Sorted nvrLE l))

/-- The final build list produced by `advisory:find-builds` (elliott.py
lines 698-715): with an advisory target the resolved list is handed to
`add_builds` verbatim (line 702); without one the preview iterates
`sorted(unshipped_builds)` (line 714). -/
def finalBuildList (advisory : Option Nat) (unshipped : List BuildRecord) : List BuildRecord :=
  match advisory with
  | some _ => unshipped
  | none => sortByNvr unshipped

/-- Observable outcome of the final stage of `advisory:find-builds`:
a single success message after `add_builds` returns (line 703), an
`exit(1)` abort when it raises (lines 704-709), or the preview listing
(lines 710-715). -/
inductive OrchestratorResult
  | attachedAll
  | abortedExit1 (msg : String)
  | preview (nvrs : List String)
deriving DecidableEq, Repr

/-- Whether the invocation ends with a failure indication (`exit(1)`). -/
def OrchestratorResult.flaggedFailed : OrchestratorResult → Bool
  | .abortedExit1 _ => true
  | _ => false

/-- The attachment stage of `advisory:find-builds` (elliott.py lines
698-715).  `addBuilds` models `erratum.add_builds`, an `ocp_cd_tools` call
whose per-build result pairs are modelled from the spec (section 6:
`attachBuilds(advisoryId, seq) -> sequence of (BuildRecord, outcome)`); the
command itself ignores that return value.  The second component records the
build lists sent to the Advisory Service, one entry per attach call. -/
def applyOrchestrator (advisory : Option Nat) (unshipped : List BuildRecord)
    (addBuilds : List BuildRecord → Except String (List (BuildRecord × Bool))) :
    OrchestratorResult × List (List BuildRecord) :=
  match advisory with
  | some _ =>
    match addBuilds unshipped with
    | .ok _ => (.attachedAll, [unshipped])
    | .error e => (.abortedExit1 e, [unshipped])
  | none => (.preview ((sortByNvr unshipped).map BuildRecord.nvr), [])

theorem chunkFuel_flatten (fuel W : Nat) :
    ∀ (xs : List α), (chunkFuel fuel W xs).flatten = xs := by
  induction fuel with
  | zero =>
    intro xs
    cases xs with
    | nil => rfl
    | cons x xs => simp [chunkFuel]
  | succ fuel ih =>
    intro xs
    cases xs with
    | nil => rfl
    | cons x xs =>
      simp only [chunkFuel, List.flatten_cons, ih]
      simp [List.take_append_drop]

theorem poolMap_eq_map (W : Nat) (f : α → β) (xs : List α) :
    poolMap W f xs = xs.map f := by
  rw [poolMap, ← List.map_flatten, chunkFuel_flatten]

theorem sequenceE_all_ok :
    ∀ (l : List (Except ε α)), (∀ x ∈ l, ∃ a, x = .ok a) →
      ∃ rs, sequenceE l = .ok rs ∧ l = rs.map Except.ok := by
  intro l
  induction l with
  | nil => intro _; exact ⟨[], rfl, rfl⟩
  | cons x rest ih =>
    intro h
    obtain ⟨a, ha⟩ := h x (by simp)
    obtain ⟨rs, h1, h2⟩ := ih (fun y hy => h y (by simp [hy]))
    refine ⟨a :: rs, ?_, ?_⟩
    · simp [sequenceE, ha, h1]
    · simp [ha, h2]

theorem sortByNvr_sorted (l : List BuildRecord) : sortedNvr (sortByNvr l) :=
  List.sorted_insertionSort nvrLE l

/-- C1: for every prior release date `r`, the release date computed by the
auto-date path of `advisory:create` (`r` plus 21 days, then shifted by
`day_of_week - 2` days when the day of the week is not Tuesday) falls on a
Tuesday (`%w` value 2). -/
theorem C1_auto_date_is_tuesday (r : Int) : dayOfWeekW (computeNextReleaseDate r) = 2 := by
  simp only [computeNextReleaseDate, dayOfWeekW]
  split_ifs <;> omega

/-- C2 counterexample: the Tuesday adjustment does not always move the date
earlier.  For prior release date 3 (1970-01-04), day 3 + 21 = 24 is a Sunday
(`%w` = 0), the shift is `-(0 - 2) = +2` days, and the computed release date
26 is strictly later than 24, so the claimed bound
`computeNextReleaseDate r ≤ r + 21` fails. -/
theorem C2_counterexample : ¬ (computeNextReleaseDate 3 ≤ 3 + 21) := by decide

/-- C2 amended: the adjustment moves `r + 21` to the Tuesday of the same
Sunday-indexed week, which moves the date later — not earlier — when
`r + 21` falls on a Sunday or Monday (`%w` value 0 or 1), and earlier when
it falls on Wednesday through Saturday; the computed release date always
lies between `r + 17` and `r + 23`. -/
theorem C2_tuesday_shift_direction (r : Int) :
    r + 17 ≤ computeNextReleaseDate r ∧ computeNextReleaseDate r ≤ r + 23 ∧
    (dayOfWeekW (r + 21) < 2 → r + 21 < computeNextReleaseDate r) ∧
    (2 < dayOfWeekW (r + 21) → computeNextReleaseDate r < r + 21) := by
  simp only [computeNextReleaseDate, dayOfWeekW]
  split_ifs <;> refine ⟨by omega, by omega, by omega, by omega⟩

theorem C2_tuesday_shift_direction_witness : 3 + 21 < computeNextReleaseDate 3 :=
  (C2_tuesday_shift_direction 3).2.2.1 (by decide)

/-- C10: in `advisory:create`, explicitly passing `--date 1970-01-01` is
indistinguishable from passing no date: the string equals the formatted
default sentinel, so the automatic release-date calculation from the latest
prior advisory is used instead of the supplied date. -/
theorem C10_sentinel_date_triggers_auto (latest : Int) :
    resolveDateSource "1970-01-01" latest = resolveDateSource defaultReleaseDateStr latest ∧
    resolveDateSource "1970-01-01" latest = .auto (computeNextReleaseDate latest) ∧
    resolveDateSource "1970-01-01" latest ≠ .userProvided "1970-01-01" := by
  have h : defaultReleaseDateStr = "1970-01-01" := by decide
  refine ⟨by rw [h], ?_, ?_⟩ <;> simp [resolveDateSource, h]

/-- C3 counterexample: the build resolution of `advisory:find-builds` does
not deduplicate by `nvr`.  In manual mode, supplying the identifier `x`
twice yields two records with the same `nvr`, not exactly one entry. -/
theorem C3_counterexample :
    unshippedBuilds 4 .rpm ["x", "x"] (fun s => ⟨s, false⟩) []
        (fun m => (m, "1", "1")) [] []
      = [⟨"x", false⟩, ⟨"x", false⟩] ∧
    (unshippedBuilds 4 .rpm ["x", "x"] (fun s => ⟨s, false⟩) []
        (fun m => (m, "1", "1")) [] []).length ≠ 1 := by
  constructor <;> decide

/-- C3 amended: the viability resolution performs no deduplication.  In
manual mode the resulting build list has exactly one record per supplied
identifier, in input order, so supplying the same identifier twice yields
two entries for it. -/
theorem C3_manual_mode_preserves_duplicates (W : Nat) (kind : Kind) (builds : List String)
    (get_brew_build : String → BuildRecord) (image_metas : List String)
    (get_latest_build_info : String → String × String × String)
    (non_release rpm_candidates : List String)
    (h : builds ≠ []) :
    unshippedBuilds W kind builds get_brew_build image_metas get_latest_build_info
        non_release rpm_candidates = builds.map get_brew_build := by
  rw [unshippedBuilds.eq_def, if_pos]
  exact List.length_pos.mpr h

theorem C3_manual_mode_preserves_duplicates_witness :
    unshippedBuilds 4 Kind.rpm ["x", "x"] (fun s => ⟨s, false⟩) []
        (fun m => (m, "1", "1")) [] []
      = ["x", "x"].map (fun s => ⟨s, false⟩) :=
  C3_manual_mode_preserves_duplicates 4 .rpm ["x", "x"] (fun s => ⟨s, false⟩) []
    (fun m => (m, "1", "1")) [] [] (by decide)

/-- C4 counterexample: the final build list is not sorted by `nvr` when an
advisory target is given: in attach mode the resolved list is handed to
`add_builds` verbatim, so a list resolved in the order `b`, `a` stays in
that unsorted order. -/
theorem C4_counterexample :
    ¬ sortedNvr (finalBuildList (some 123) [⟨"b", false⟩, ⟨"a", false⟩]) := by decide

/-- C4 amended: the final build list is sorted lexicographically ascending
by `nvr` only in preview mode (no advisory target); in attach mode the list
is passed to the attach call in its original resolution order, unsorted. -/
theorem C4_sorted_only_in_preview (adv : Nat) (unshipped : List BuildRecord) :
    sortedNvr (finalBuildList none unshipped) ∧
    finalBuildList (some adv) unshipped = unshipped :=
  ⟨sortByNvr_sorted unshipped, rfl⟩

/-- C5: in automatic rpm-kind mode of `advisory:find-builds` every record in
the resulting build list has `attached_to_open_erratum = false` (records
attached to an open advisory are excluded), while automatic image-kind mode
does not apply this re-check: a record attached to an open erratum
(`attached_to_open_erratum = true`) passes through the image path. -/
theorem C5_rpm_attachment_filter (W : Nat) (get_brew_build : String → BuildRecord)
    (image_metas : List String) (get_latest_build_info : String → String × String × String)
    (non_release rpm_candidates : List String) :
    (∀ b ∈ unshippedBuilds W .rpm [] get_brew_build image_metas get_latest_build_info
        non_release rpm_candidates, b.attached_to_open_erratum = false) ∧
    unshippedBuilds 1 .image [] (fun s => ⟨s, true⟩) ["m"] (fun m => (m, "1", "2")) [] []
      = [⟨"m-1-2", true⟩] := by
  constructor
  · intro b hb
    have hmem : b ∈ (poolMap W get_brew_build rpm_candidates).filter
        (fun b => !b.attached_to_open_erratum) := by
      simpa [unshippedBuilds] using hb
    simpa using (List.mem_filter.mp hmem).2
  · decide

theorem C5_rpm_attachment_filter_witness :
    (⟨"x", false⟩ : BuildRecord).attached_to_open_erratum = false :=
  (C5_rpm_attachment_filter 1 (fun s => ⟨s, false⟩) [] (fun m => (m, "1", "1")) [] ["x"]).1
    ⟨"x", false⟩ (by decide)

/-- C6: when every remote call succeeds, the concurrent enrichment step of
`advisory:find-builds` on `N` candidates with worker bound `W ≤ N` returns
exactly `N` build records, the i-th obtained from the i-th candidate (no
drops and no duplicates), and the result does not depend on `W`. -/
theorem C6_enrich_complete (W : Nat) (fetch : String → Except String BuildRecord)
    (candidates : List String) (hW : W ≤ candidates.length)
    (hok : ∀ c ∈ candidates, ∃ r, fetch c = .ok r) :
    ∃ rs, enrich W fetch candidates = .ok rs ∧
      rs.length = candidates.length ∧
      candidates.map fetch = rs.map Except.ok ∧
      ∀ V, enrich V fetch candidates = enrich W fetch candidates := by
  have hall : ∀ x ∈ candidates.map fetch, ∃ a, x = .ok a := by
    intro x hx
    obtain ⟨c, hc, rfl⟩ := List.mem_map.mp hx
    exact hok c hc
  obtain ⟨rs, h1, h2⟩ := sequenceE_all_ok (candidates.map fetch) hall
  refine ⟨rs, ?_, ?_, h2, ?_⟩
  · rw [enrich, poolMap_eq_map]
    exact h1
  · simpa using (congrArg List.length h2).symm
  · intro V
    rw [enrich, enrich, poolMap_eq_map, poolMap_eq_map]

theorem C6_enrich_complete_witness :
    ∃ rs, enrich 1 (fun s => (Except.ok ⟨s, false⟩ : Except String BuildRecord)) ["a", "b"]
        = .ok rs ∧
      rs.length = (["a", "b"] : List String).length ∧
      (["a", "b"] : List String).map
          (fun s => (Except.ok ⟨s, false⟩ : Except String BuildRecord))
        = rs.map (Except.ok : BuildRecord → Except String BuildRecord) ∧
      ∀ V, enrich V (fun s => (Except.ok ⟨s, false⟩ : Except String BuildRecord)) ["a", "b"]
        = enrich 1 (fun s => (Except.ok ⟨s, false⟩ : Except String BuildRecord)) ["a", "b"] :=
  C6_enrich_complete 1 (fun s => (Except.ok ⟨s, false⟩ : Except String BuildRecord))
    ["a", "b"] (by decide) (fun c _ => ⟨⟨c, false⟩, rfl⟩)

/-- C7 counterexample: with an advisory target, a partial attachment failure
is not reported per build and the invocation is not flagged as failed.  For
a viability set of three builds where the Advisory Service reports two
successes and one failure, the command prints the single unconditional
success message (the service's per-build outcome pairs are ignored) and the
invocation does not carry a failure indication. -/
theorem C7_counterexample :
    (applyOrchestrator (some 123) [⟨"a", false⟩, ⟨"b", false⟩, ⟨"c", false⟩]
        (fun bs => .ok (bs.map (fun b => (b, b.nvr != "c"))))).1 = .attachedAll ∧
    ((applyOrchestrator (some 123) [⟨"a", false⟩, ⟨"b", false⟩, ⟨"c", false⟩]
        (fun bs => .ok (bs.map (fun b => (b, b.nvr != "c"))))).1).flaggedFailed = false := by
  constructor <;> rfl

/-- C7 amended: when an advisory target is given the orchestrator makes a
single attach call with the whole viability set and ignores the per-build
outcomes: if the call raises no exception the invocation reports
unconditional success (it is not flagged as failed, even when some
per-build outcomes are failures); if the call raises, the invocation aborts
with exit status 1 and produces no per-build report. -/
theorem C7_attach_all_or_abort (adv : Nat) (unshipped : List BuildRecord)
    (addBuilds : List BuildRecord → Except String (List (BuildRecord × Bool))) :
    (∀ outcomes, addBuilds unshipped = .ok outcomes →
      (applyOrchestrator (some adv) unshipped addBuilds).1 = .attachedAll ∧
      ((applyOrchestrator (some adv) unshipped addBuilds).1).flaggedFailed = false) ∧
    (∀ e, addBuilds unshipped = .error e →
      (applyOrchestrator (some adv) unshipped addBuilds).1 = .abortedExit1 e ∧
      ((applyOrchestrator (some adv) unshipped addBuilds).1).flaggedFailed = true) := by
  constructor
  · intro outcomes h
    simp [applyOrchestrator, h, OrchestratorResult.flaggedFailed]
  · intro e h
    simp [applyOrchestrator, h, OrchestratorResult.flaggedFailed]

theorem C7_attach_all_or_abort_witness :
    ((applyOrchestrator (some 1) [] (fun _ => .ok [])).1 = .attachedAll ∧
      ((applyOrchestrator (some 1) [] (fun _ => .ok [])).1).flaggedFailed = false) ∧
    ((applyOrchestrator (some 1) [] (fun _ => .error "e")).1 = .abortedExit1 "e" ∧
      ((applyOrchestrator (some 1) [] (fun _ => .error "e")).1).flaggedFailed = true) :=
  ⟨(C7_attach_all_or_abort 1 [] (fun _ => .ok [])).1 [] rfl,
   (C7_attach_all_or_abort 1 [] (fun _ => .error "e")).2 "e" rfl⟩

/-- C8: when no advisory target is supplied, `advisory:find-builds` makes no
attach call to the Advisory Service (the list of attach calls is empty, so
the service state is unchanged) and produces only the preview listing of the
resolved builds. -/
theorem C8_no_advisory_no_attach (unshipped : List BuildRecord)
    (addBuilds : List BuildRecord → Except String (List (BuildRecord × Bool))) :
    (applyOrchestrator none unshipped addBuilds).2 = [] ∧
    (applyOrchestrator none unshipped addBuilds).1
      = .preview ((sortByNvr unshipped).map BuildRecord.nvr) :=
  ⟨rfl, rfl⟩

/-- C9: the enrichment step returns its results in the same order as the
input candidates — the pool map equals the ordinary map, and the i-th result
is the enrichment of the i-th candidate — so the output order is
deterministic for a fixed input order, for every worker bound `W`. -/
theorem C9_enrichment_preserves_input_order (W : Nat) (f : String → BuildRecord)
    (candidates : List String) :
    poolMap W f candidates = candidates.map f ∧
    ∀ i : Nat, (poolMap W f candidates)[i]? = (candidates[i]?).map f := by
  refine ⟨poolMap_eq_map W f candidates, fun i => ?_⟩
  rw [poolMap_eq_map]
  simp
